import Mathlib

/-!
Verification of the LuJavRite bridge (`lujavrite.c`) against its
natural-language specification.  The C source is shallowly embedded:
pure data flow becomes Lean functions, the global/thread-local mutable
cells (`JJ`, `J`, `LL`) become explicit state, and the control flow of
each C function is rendered as a Lean function that additionally emits
an event trace recording the externally visible actions (JNI reference
creation/deletion, publication of the thread-local `lua_State`
pointer, exception checks, Lua stack pushes).  The Lua interpreter and
the JVM are external collaborators: only their interfaces are
modelled, executably, at the fidelity the bridge itself relies on.
-/

namespace Lujavrite

/-- Lua values as seen by the bridge at the script boundary.  Tables carry
one level of string-keyed fields; the interpreter evaluator itself is an
external collaborator of which only the stack interface is modelled. -/
inductive LuaValue : Type where
  | nil : LuaValue
  | boolean : Bool → LuaValue
  | num : Int → LuaValue
  | str : String → LuaValue
  | table : List (String × LuaValue) → LuaValue
  | func : Nat → LuaValue

/-- Test for the Lua nil value, mirroring `lua_isnil`. -/
def LuaValue.isnil : LuaValue → Bool
  | .nil => true
  | _ => false

/-- Model of `luaL_checkstring`: accepts strings, coerces numbers to their
decimal string form, and fails (raising a Lua argument error in the C
code) on every other value. -/
def checkstring : LuaValue → Option String
  | .str s => some s
  | .num n => some (toString n)
  | _ => none

/-- Lua type tags as returned by `lua_getglobal` and `lua_getfield`,
following the `LUA_T*` constants. -/
def typeTag : LuaValue → Int
  | .nil => 0
  | .boolean _ => 1
  | .num _ => 3
  | .str _ => 4
  | .table _ => 5
  | .func _ => 6

/-- Interpreter state visible through the stack interface: globals, the
value stack (bottom first, pushes append at the end), and a scripted
queue of outcomes for `lua_pcall` (the evaluator itself is out of
scope, so each protected call consumes the next scripted outcome). -/
structure LuaSt : Type where
  globals : List (String × LuaValue)
  stack : List LuaValue
  pcallScript : List (Int × List LuaValue)

/-- Resolution of a Lua stack index: positive indices count from the
bottom (1-based), negative indices from the top. -/
def absIndex (len : Nat) (idx : Int) : Option Nat :=
  if 0 < idx then
    if idx ≤ (len : Int) then some (idx.toNat - 1) else none
  else if idx < 0 then
    if -idx ≤ (len : Int) then some (len - (-idx).toNat) else none
  else none

/-- Value stored at a Lua stack index, if the index is valid. -/
def valueAt (stack : List LuaValue) (idx : Int) : Option LuaValue :=
  match absIndex stack.length idx with
  | some k => stack.get? k
  | none => none

/-- Model of `lua_getglobal`: push the named global (or nil) and return
its type tag. -/
def lua_getglobal (ls : LuaSt) (name : String) : LuaSt × Int :=
  let v := (List.lookup name ls.globals).getD .nil
  ({ ls with stack := ls.stack ++ [v] }, typeTag v)

/-- Model of `lua_getfield`: push the named field of the table at the
given index (nil when absent or when the slot is not a table) and
return its type tag. -/
def lua_getfield (ls : LuaSt) (idx : Int) (name : String) : LuaSt × Int :=
  let v :=
    match valueAt ls.stack idx with
    | some (.table fields) => (List.lookup name fields).getD .nil
    | _ => .nil
  ({ ls with stack := ls.stack ++ [v] }, typeTag v)

/-- Model of `lua_pushstring`. -/
def lua_pushstring (ls : LuaSt) (s : String) : LuaSt :=
  { ls with stack := ls.stack ++ [.str s] }

/-- Model of `lua_pcall`: pops the function and `nargs` arguments and
consumes the next scripted outcome (status code, result values); the
status code is whatever the interpreter reports, passed through. -/
def lua_pcall (ls : LuaSt) (nargs : Int) (nresults : Int) (msgh : Int) :
    LuaSt × Int :=
  match ls.pcallScript with
  | [] => (ls, 2)
  | (status, results) :: rest =>
      let keep := ls.stack.length - (nargs.toNat + 1)
      ({ ls with stack := ls.stack.take keep ++ results, pcallScript := rest },
       status)

/-- Model of `lua_tostring`: the string form of a string or number at the
given index, and the null pointer (none) for any other value. -/
def lua_tostring (ls : LuaSt) (idx : Int) : Option String :=
  match valueAt ls.stack idx with
  | some (.str s) => some s
  | some (.num n) => some (toString n)
  | _ => none

/-- Model of `lua_remove`: erase the element at the given index. -/
def lua_remove (ls : LuaSt) (idx : Int) : LuaSt :=
  match absIndex ls.stack.length idx with
  | some k => { ls with stack := ls.stack.eraseIdx k }
  | none => ls

/-- Model of `lua_pop`: drop `n` values from the top of the stack. -/
def lua_pop (ls : LuaSt) (n : Int) : LuaSt :=
  { ls with stack := ls.stack.take (ls.stack.length - n.toNat) }

/-- The fixed diagnostic message thrown by `check_lua_state`. -/
def luaStateNullMsg : String :=
  "lujavrite: unable to call Lua from Java: Lua state is NULL"

/-- A Java exception as thrown through JNI `ThrowNew`: class name plus
message. -/
structure JThrown : Type where
  className : String
  message : String
deriving DecidableEq, Repr

/-- The exception raised by `check_lua_state` when the thread-local Lua
state `LL` is null. -/
def runtimeExNull : JThrown :=
  { className := "java/lang/RuntimeException", message := luaStateNullMsg }

/-- Interpreter stack operations, used to record which Lua C API call an
inbound primitive performed. -/
inductive LuaOp : Type where
  | getglobal : String → LuaOp
  | getfield : Int → String → LuaOp
  | pushstring : String → LuaOp
  | pcall : Int → Int → Int → LuaOp
  | tostring : Int → LuaOp
  | remove : Int → LuaOp
  | pop : Int → LuaOp
deriving DecidableEq, Repr

/-- Result of one inbound JNI primitive: the value returned to Java, the
pending Java exception if any, the interpreter state referenced by the
thread-local slot `LL` after the call (none when `LL` was null), and
the list of interpreter stack operations performed. -/
structure InboundRes (α : Type) : Type where
  value : α
  thrown : Option JThrown
  state : Option LuaSt
  ops : List LuaOp

/-- Embedding of `Java_io_kojan_lujavrite_Lua_getglobal`: guarded by
`check_lua_state`, then a passthrough to `lua_getglobal`. -/
def Java_io_kojan_lujavrite_Lua_getglobal (LL : Option LuaSt)
    (name : String) : InboundRes Int :=
  match LL with
  | none => ⟨0, some runtimeExNull, none, []⟩
  | some ls =>
      let r := lua_getglobal ls name
      ⟨r.2, none, some r.1, [.getglobal name]⟩

/-- Embedding of `Java_io_kojan_lujavrite_Lua_getfield`. -/
def Java_io_kojan_lujavrite_Lua_getfield (LL : Option LuaSt) (index : Int)
    (name : String) : InboundRes Int :=
  match LL with
  | none => ⟨0, some runtimeExNull, none, []⟩
  | some ls =>
      let r := lua_getfield ls index name
      ⟨r.2, none, some r.1, [.getfield index name]⟩

/-- Embedding of `Java_io_kojan_lujavrite_Lua_pushstring`. -/
def Java_io_kojan_lujavrite_Lua_pushstring (LL : Option LuaSt)
    (string : String) : InboundRes Unit :=
  match LL with
  | none => ⟨(), some runtimeExNull, none, []⟩
  | some ls =>
      ⟨(), none, some (lua_pushstring ls string), [.pushstring string]⟩

/-- Embedding of `Java_io_kojan_lujavrite_Lua_pcall`. -/
def Java_io_kojan_lujavrite_Lua_pcall (LL : Option LuaSt) (nargs : Int)
    (nresults : Int) (msgh : Int) : InboundRes Int :=
  match LL with
  | none => ⟨0, some runtimeExNull, none, []⟩
  | some ls =>
      let r := lua_pcall ls nargs nresults msgh
      ⟨r.2, none, some r.1, [.pcall nargs nresults msgh]⟩

/-- Embedding of `Java_io_kojan_lujavrite_Lua_tostring`: the returned
jstring is modelled as an optional string, none standing for the null
reference produced both on the guard path and by `NewStringUTF` on a
null C string. -/
def Java_io_kojan_lujavrite_Lua_tostring (LL : Option LuaSt) (index : Int) :
    InboundRes (Option String) :=
  match LL with
  | none => ⟨none, some runtimeExNull, none, []⟩
  | some ls =>
      ⟨lua_tostring ls index, none, some ls, [.tostring index]⟩

/-- Embedding of `Java_io_kojan_lujavrite_Lua_remove`. -/
def Java_io_kojan_lujavrite_Lua_remove (LL : Option LuaSt) (index : Int) :
    InboundRes Unit :=
  match LL with
  | none => ⟨(), some runtimeExNull, none, []⟩
  | some ls =>
      ⟨(), none, some (lua_remove ls index), [.remove index]⟩

/-- Embedding of `Java_io_kojan_lujavrite_Lua_pop`. -/
def Java_io_kojan_lujavrite_Lua_pop (LL : Option LuaSt) (n : Int) :
    InboundRes Unit :=
  match LL with
  | none => ⟨(), some runtimeExNull, none, []⟩
  | some ls =>
      ⟨(), none, some (lua_pop ls n), [.pop n]⟩

/-- Externally visible events of one execution of the outbound `call`
function, in program order.  JNI local references created for arguments
are identified by the argument position that created them. -/
inductive CallEv : Type where
  | attachThread : CallEv
  | findClass : Bool → CallEv
  | getStaticMethod : Bool → CallEv
  | newStringUTF : Nat → String → CallEv
  | checkstringFail : Nat → CallEv
  | assertLLIsNull : Bool → CallEv
  | setLL : Nat → CallEv
  | callStaticMethod : List (Option String) → CallEv
  | clearLL : CallEv
  | deleteLocalRef : Nat → CallEv
  | exceptionCheck : Bool → CallEv
  | exceptionDescribe : CallEv
  | isSameObjectNull : Bool → CallEv
  | pushNil : CallEv
  | getStringUTFChars : String → CallEv
  | pushString : String → CallEv
  | releaseStringUTFChars : CallEv
deriving DecidableEq, Repr

/-- How one execution of `call` ends: a recoverable Lua error raised via
`luaL_error`, an assertion failure (process abort), or a normal return
pushing nil (none) or a string. -/
inductive CallOutcome : Type where
  | luaError : String → CallOutcome
  | assertionFailure : CallOutcome
  | ret : Option String → CallOutcome
deriving DecidableEq, Repr

/-- Inputs and environment of one execution of `call`: the global and
thread-local cells on entry (`JJ`, `J`, `LL`), the identity of the
calling `lua_State`, the Lua arguments read off the stack, the outcome
of JNI class/method resolution, and the behaviour of the invoked static
Java method (decoded argument vector, null for null references, mapped
to the returned jstring and whether an exception is left pending). -/
structure CallCfg : Type where
  jvmCreated : Bool
  envCached : Bool
  getEnvOk : Bool
  attachOk : Bool
  activeLL : Option Nat
  luaStateId : Nat
  className : LuaValue
  methodName : LuaValue
  methodSignature : LuaValue
  classFound : Bool
  methodFound : Bool
  args : List LuaValue
  method : List (Option String) → Option String × Bool

/-- Trace of the per-thread attachment step at the start of `call`:
empty when the thread-local `JNIEnv` is already cached, one attachment
otherwise. -/
def attachTrace (envCached : Bool) : List CallEv :=
  if envCached then [] else [.attachThread]

/-- Argument-conversion loop of `call`: a nil Lua argument becomes a null
jvalue, any other argument goes through `luaL_checkstring` and
`NewStringUTF`; a non-convertible argument raises a Lua argument error
mid-loop.  Returns the events emitted and, on success, the converted
jvalue vector. -/
def convertLoop : List LuaValue → Nat → List CallEv × Option (List (Option String))
  | [], _ => ([], some [])
  | v :: rest, i =>
    if v.isnil then
      let r := convertLoop rest (i + 1)
      (r.1, r.2.map (fun l => none :: l))
    else
      match checkstring v with
      | none => ([.checkstringFail i], none)
      | some s =>
          let r := convertLoop rest (i + 1)
          (.newStringUTF i s :: r.1, r.2.map (fun l => some s :: l))

/-- Reclamation loop of `call`: delete every non-null argument reference. -/
def deleteLoop : List (Option String) → Nat → List CallEv
  | [], _ => []
  | none :: rest, i => deleteLoop rest (i + 1)
  | some _ :: rest, i => .deleteLocalRef i :: deleteLoop rest (i + 1)

/-- Embedding of the outbound `call` function of `lujavrite.c`, emitting
the event trace of the execution together with its outcome. -/
def call (cfg : CallCfg) : List CallEv × CallOutcome :=
  if cfg.jvmCreated = false then
    ([], .luaError "JVM has not been initialized")
  else if (cfg.envCached || cfg.getEnvOk || cfg.attachOk) = false then
    ([.attachThread], .luaError "failed to attach current thread to JVM")
  else
    let tr0 : List CallEv := attachTrace cfg.envCached
    match checkstring cfg.className, checkstring cfg.methodName,
        checkstring cfg.methodSignature with
    | none, _, _ => (tr0 ++ [.checkstringFail 1], .luaError "bad argument")
    | some _, none, _ => (tr0 ++ [.checkstringFail 2], .luaError "bad argument")
    | some _, some _, none => (tr0 ++ [.checkstringFail 3], .luaError "bad argument")
    | some _, some _, some _ =>
      if cfg.classFound = false then
        (tr0 ++ [.findClass false, .exceptionDescribe],
         .luaError "unable to find the Java class to call")
      else if cfg.methodFound = false then
        (tr0 ++ [.findClass true, .getStaticMethod false, .exceptionDescribe],
         .luaError "unable to find the Java method to call")
      else
        let tr1 := tr0 ++ [.findClass true, .getStaticMethod true]
        let conv := convertLoop cfg.args 0
        match conv.2 with
        | none => (tr1 ++ conv.1, .luaError "bad argument")
        | some jargs =>
          match cfg.activeLL with
          | some _ => (tr1 ++ conv.1 ++ [.assertLLIsNull false], .assertionFailure)
          | none =>
            let mr := cfg.method jargs
            let tr2 := tr1 ++ conv.1 ++
              [.assertLLIsNull true, .setLL cfg.luaStateId,
               .callStaticMethod jargs, .clearLL] ++
              deleteLoop jargs 0 ++ [.exceptionCheck mr.2]
            if mr.2 then
              (tr2 ++ [.exceptionDescribe],
               .luaError "exception was thrown from called Java code")
            else
              match mr.1 with
              | none => (tr2 ++ [.isSameObjectNull true, .pushNil], .ret none)
              | some s =>
                  (tr2 ++ [.isSameObjectNull false, .getStringUTFChars s,
                           .pushString s, .releaseStringUTFChars],
                   .ret (some s))

/-- Whether an execution of `call` with this configuration reaches the
publication of `LL` (i.e. survives every guard before `assert`). -/
def reachesPublish (cfg : CallCfg) : Bool :=
  cfg.jvmCreated && (cfg.envCached || cfg.getEnvOk || cfg.attachOk) &&
  (checkstring cfg.className).isSome && (checkstring cfg.methodName).isSome &&
  (checkstring cfg.methodSignature).isSome &&
  cfg.classFound && cfg.methodFound && (convertLoop cfg.args 0).2.isSome

/-- Events allowed to occur before the publication of `LL`: everything
except the publication block itself and the post-call reclamation and
exception check. -/
def neutralBefore : CallEv → Bool
  | .setLL _ => false
  | .clearLL => false
  | .callStaticMethod _ => false
  | .deleteLocalRef _ => false
  | .exceptionCheck _ => false
  | _ => true

/-- Events allowed to occur after the publication window is closed:
everything except a second publication or invocation. -/
def noPublishEv : CallEv → Bool
  | .setLL _ => false
  | .clearLL => false
  | .callStaticMethod _ => false
  | _ => true

/-- Scoping discipline of the `LL` slot in a trace: either the slot is
never set, and no invocation, reclamation or exception check happens
either; or the trace contains exactly one contiguous block setting the
slot to the calling state, invoking the method, and clearing the slot,
with reclamation and exception checking strictly afterwards. -/
def llScopedGo (L : Nat) : List CallEv → Bool
  | [] => true
  | .setLL id :: rest =>
      (id == L) &&
      (match rest with
       | .callStaticMethod _ :: .clearLL :: rest2 => rest2.all noPublishEv
       | _ => false)
  | e :: rest => neutralBefore e && llScopedGo L rest

/-- Test for the `setLL` event. -/
def isSetLL : CallEv → Bool
  | .setLL _ => true
  | _ => false

/-- Positions of the `deleteLocalRef` events of a trace, in order. -/
def deletePositions (tr : List CallEv) : List Nat :=
  tr.filterMap (fun e => match e with | .deleteLocalRef i => some i | _ => none)

/-- Positions of the `newStringUTF` events of a trace, in order. -/
def createdPositions (tr : List CallEv) : List Nat :=
  tr.filterMap (fun e => match e with | .newStringUTF i _ => some i | _ => none)

/-- Positions of the non-nil arguments of an argument list, starting the
count at `i`. -/
def nonNilIdx : List LuaValue → Nat → List Nat
  | [], _ => []
  | v :: rest, i =>
      if v.isnil then nonNilIdx rest (i + 1) else i :: nonNilIdx rest (i + 1)

/-- No `deleteLocalRef` event occurs before the `clearLL` event. -/
def noDeleteBeforeClear : List CallEv → Bool
  | [] => true
  | .deleteLocalRef _ :: _ => false
  | .clearLL :: _ => true
  | _ :: rest => noDeleteBeforeClear rest

/-- Test for `deleteLocalRef` events. -/
def isDelete : CallEv → Bool
  | .deleteLocalRef _ => true
  | _ => false

/-- Every `deleteLocalRef` event occurs before the `exceptionCheck`
event (reclamation precedes exception translation). -/
def noDeleteAfterExCheck : List CallEv → Bool
  | [] => true
  | .exceptionCheck _ :: rest => rest.all (fun e => !(isDelete e))
  | _ :: rest => noDeleteAfterExCheck rest

/-- The converted jvalue vector for an argument list, as passed to the
static Java method: null for nil, the checked string form otherwise. -/
def jargsOf (args : List LuaValue) : List (Option String) :=
  args.map (fun v => if v.isnil then none else checkstring v)

/-- Tail of the `call` trace after the exception check: describe a
pending exception, or convert the result (nil for a null reference,
otherwise fetch, push and release the string form). -/
def callTail (mr : Option String × Bool) : List CallEv :=
  if mr.2 then [.exceptionDescribe]
  else
    match mr.1 with
    | none => [.isSameObjectNull true, .pushNil]
    | some s => [.isSameObjectNull false, .getStringUTFChars s,
                 .pushString s, .releaseStringUTFChars]

/-- Outcome of `call` after the exception check: a Lua error when an
exception is pending, otherwise a normal return of the (nullable)
result. -/
def callTailOutcome (mr : Option String × Bool) : CallOutcome :=
  if mr.2 then .luaError "exception was thrown from called Java code"
  else .ret mr.1

/-- The full trace of an execution of `call` that reaches the method
invocation with `LL` initially null. -/
def publishTrace (cfg : CallCfg) (jargs : List (Option String)) : List CallEv :=
  attachTrace cfg.envCached ++ [.findClass true, .getStaticMethod true] ++
  (convertLoop cfg.args 0).1 ++
  [.assertLLIsNull true, .setLL cfg.luaStateId, .callStaticMethod jargs,
   .clearLL] ++
  deleteLoop jargs 0 ++ [.exceptionCheck (cfg.method jargs).2] ++
  callTail (cfg.method jargs)

/-- Test for events that are neither reference deletion nor the clearing
of `LL`. -/
def notDeleteNorClear : CallEv → Bool
  | .deleteLocalRef _ => false
  | .clearLL => false
  | _ => true

/-- Test for the `exceptionCheck` event. -/
def isExCheck : CallEv → Bool
  | .exceptionCheck _ => true
  | _ => false

/-- Concrete call configuration: complete run, `LL` null on entry. -/
def cfgWindowRun : CallCfg :=
  { jvmCreated := true, envCached := true, getEnvOk := true, attachOk := true,
    activeLL := none, luaStateId := 7,
    className := .str "io/kojan/Test", methodName := .str "run",
    methodSignature := .str "(Ljava/lang/String;)Ljava/lang/String;",
    classFound := true, methodFound := true,
    args := [.str "a", .nil, .num 3],
    method := fun _ => (some "ok", false) }

/-- Concrete call configuration: nested call, `LL` already set. -/
def cfgWindowNested : CallCfg :=
  { cfgWindowRun with activeLL := some 5 }

/-- Concrete call configuration: the invoked method throws. -/
def cfgReclaimThrow : CallCfg :=
  { jvmCreated := true, envCached := true, getEnvOk := true, attachOk := true,
    activeLL := none, luaStateId := 1,
    className := .str "io/kojan/Test", methodName := .str "boom",
    methodSignature := .str "(Ljava/lang/String;)Ljava/lang/String;",
    classFound := true, methodFound := true,
    args := [.str "a", .nil, .num 3],
    method := fun _ => (none, true) }

/-- Concrete call configuration: the invoked method returns null. -/
def cfgResultNull : CallCfg :=
  { jvmCreated := true, envCached := true, getEnvOk := true, attachOk := true,
    activeLL := none, luaStateId := 2,
    className := .str "io/kojan/Test", methodName := .str "toNull",
    methodSignature := .str "(Ljava/lang/String;)Ljava/lang/String;",
    classFound := true, methodFound := true, args := [.str "x"],
    method := fun _ => (none, false) }

/-- Concrete call configuration: the invoked method echoes its first
argument. -/
def cfgResultEcho : CallCfg :=
  { cfgResultNull with
    methodName := .str "echo"
    args := [.str "hello"]
    method := fun a => (a.headD none, false) }

/-- Concrete call configuration: mixed nil, string and number
arguments. -/
def cfgArgMix : CallCfg :=
  { jvmCreated := true, envCached := true, getEnvOk := true, attachOk := true,
    activeLL := none, luaStateId := 4,
    className := .str "io/kojan/Test", methodName := .str "run",
    methodSignature :=
      .str "(Ljava/lang/String;Ljava/lang/String;)Ljava/lang/String;",
    classFound := true, methodFound := true,
    args := [.str "a", .nil, .num 3],
    method := fun _ => (none, false) }

/-- State of the two mutable cells touched by `init` as seen from the
calling thread: the process-wide `JJ` (JavaVM handle) and the calling
thread's thread-local `J` (JNIEnv). -/
structure InitSt : Type where
  jj : Bool
  j : Bool
deriving DecidableEq, Repr

/-- Environment of one execution of `init`: the Lua arguments and the
outcomes of the external loading steps (`dlopen` of libjvm, `dlsym` of
the creation entry point, `JNI_CreateJavaVM`, `dladdr` on the bridge's
own symbol, and the self-repinning `dlopen`). -/
structure InitCfg : Type where
  path : LuaValue
  options : List LuaValue
  dlopenOk : Bool
  dlsymOk : Bool
  createOk : Bool
  dladdrOk : Bool
  repinOk : Bool

/-- How one execution of `init` ends: normal return or a recoverable
Lua error raised via `luaL_error`. -/
inductive InitOutcome : Type where
  | ok : InitOutcome
  | luaError : String → InitOutcome
deriving DecidableEq, Repr

/-- The option-collection loop of `init`: `luaL_checkstring` applied to
every option argument in order. -/
def checkstringAll : List LuaValue → Option (List String)
  | [] => some []
  | v :: rest =>
    match checkstring v with
    | none => none
    | some s => (checkstringAll rest).map (fun l => s :: l)

/-- Embedding of the current `init` function of `lujavrite.c`.  On
successful `JNI_CreateJavaVM` the cells `JJ` and `J` are written (the
creation call publishes through its out-parameters); the two
self-repinning steps run afterwards, so their failures leave the cells
written. -/
def init (cfg : InitCfg) (s : InitSt) : InitSt × InitOutcome :=
  if s.jj then (s, .luaError "JVM has already been initialized")
  else
    match checkstring cfg.path with
    | none => (s, .luaError "bad argument")
    | some _ =>
      if cfg.dlopenOk = false then (s, .luaError "dlopen(libjvm.so) error")
      else if cfg.dlsymOk = false then
        (s, .luaError "dlsym(JNI_CreateJavaVM) error")
      else
        match checkstringAll cfg.options with
        | none => (s, .luaError "bad argument")
        | some _ =>
          if cfg.createOk = false then (s, .luaError "failed to create JVM")
          else
            let s1 : InitSt := { jj := true, j := true }
            if cfg.dladdrOk = false then (s1, .luaError "dladdr() failed")
            else if cfg.repinOk = false then
              (s1, .luaError "dlopen(lujavrite.so) error")
            else (s1, .ok)

/-- Embedding of the `initialized` function of `lujavrite.c` as seen
from the calling thread: it pushes the truth value of `J != NULL`,
i.e. it reads the thread-local `JNIEnv`, not the process-wide handle. -/
def initialized (s : InitSt) : Bool := s.j

/-- Whether an execution of `init` reaches the `JNI_CreateJavaVM`
call (all argument checks and loading steps before it succeed). -/
def reachesCreation (cfg : InitCfg) : Bool :=
  (checkstring cfg.path).isSome && cfg.dlopenOk && cfg.dlsymOk &&
  (checkstringAll cfg.options).isSome

/-- Process-wide view for the `initialized` claim: the shared `JJ` cell
and the thread-local `J` cells of two threads. -/
structure ProcSt : Type where
  jj : Bool
  j0 : Bool
  j1 : Bool
deriving DecidableEq, Repr

/-- The `initialized` function evaluated on a given thread: it reads
that thread's thread-local `J`. -/
def initializedOn (t : Bool) (s : ProcSt) : Bool := if t then s.j1 else s.j0

/-- Effect of a successful `init` executed on thread `t`: the shared
handle is published and the executing thread's `J` is written; the
other thread's thread-local `J` is untouched. -/
def initSuccessOn (t : Bool) (s : ProcSt) : ProcSt :=
  if s.jj then s
  else if t then { s with jj := true, j1 := true }
  else { s with jj := true, j0 := true }

/-- The option-block loop of the current `init`: slot `i` of the
`JavaVMOption` array receives option `i` (`jvmopt[i].optionString`),
starting from an uninitialized array. -/
def build_jvmopt_go : List String → Nat → List (Option String) → List (Option String)
  | [], _, a => a
  | s :: rest, i, a => build_jvmopt_go rest (i + 1) (a.set i (some s))

/-- Option block built by the current `init` for the given options. -/
def build_jvmopt (opts : List String) : List (Option String) :=
  build_jvmopt_go opts 0 (List.replicate opts.length none)

/-- The option-block loop of the historical `init` kept at the bottom of
`lujavrite.c`: every iteration writes slot 0 (`jvmopt[0].optionString`),
leaving the remaining slots uninitialized. -/
def build_jvmopt_historical_go : List String → List (Option String) → List (Option String)
  | [], a => a
  | s :: rest, a => build_jvmopt_historical_go rest (a.set 0 (some s))

/-- Option block built by the historical `init` for the given options. -/
def build_jvmopt_historical (opts : List String) : List (Option String) :=
  build_jvmopt_historical_go opts (List.replicate opts.length none)

/-- Outcome of an `init` attempt in the two-thread race model. -/
inductive RaceOutcome : Type where
  | success : RaceOutcome
  | alreadyInit : RaceOutcome
  | createFailed : RaceOutcome
deriving DecidableEq, Repr, Fintype

/-- Program counter of one thread running `init` in the race model: not
yet at the initialization check, past the check (observed `JJ` null), or
finished with an outcome. -/
inductive TPc : Type where
  | start : TPc
  | checked : TPc
  | done : RaceOutcome → TPc
deriving DecidableEq, Repr, Fintype

/-- Shared state of the two-thread `init` race: the published handle
`JJ`, whether a JVM has been created in the process (the JNI layer
creates at most one), and both program counters. -/
structure RaceSt : Type where
  jj : Bool
  vmCreated : Bool
  t0 : TPc
  t1 : TPc
deriving DecidableEq, Repr, Fintype

/-- One atomic step of a thread in the race model, mirroring the two
globally visible steps of `init`: the `JJ != NULL` check (raising the
already-initialized error when it trips) and the `JNI_CreateJavaVM`
call publishing through `&JJ` (which fails when a JVM already exists). -/
def stepThread (s : RaceSt) (pc : TPc) : TPc × Bool × Bool :=
  match pc with
  | .start =>
      if s.jj then (.done .alreadyInit, s.jj, s.vmCreated)
      else (.checked, s.jj, s.vmCreated)
  | .checked =>
      if s.vmCreated then (.done .createFailed, s.jj, s.vmCreated)
      else (.done .success, true, true)
  | .done o => (.done o, s.jj, s.vmCreated)

/-- Interleaving step: run one atomic step of thread 0 (`false`) or
thread 1 (`true`). -/
def raceStep (s : RaceSt) (t : Bool) : RaceSt :=
  if t then
    let r := stepThread s s.t1
    { s with t1 := r.1, jj := r.2.1, vmCreated := r.2.2 }
  else
    let r := stepThread s s.t0
    { s with t0 := r.1, jj := r.2.1, vmCreated := r.2.2 }

/-- Initial state of the race: nothing published, both threads about to
run `init`. -/
def raceInit : RaceSt := ⟨false, false, .start, .start⟩

/-- Run the race under a given interleaving schedule. -/
def raceRun (sched : List Bool) : RaceSt := sched.foldl raceStep raceInit

/-- Count of one thread outcome towards the success tally. -/
def scoreTPc : TPc → Nat
  | .done .success => 1
  | _ => 0

/-- Number of threads that completed `init` successfully. -/
def successCount (s : RaceSt) : Nat := scoreTPc s.t0 + scoreTPc s.t1

/-- Whether a thread has finished its `init` attempt. -/
def isDoneB : TPc → Bool
  | .done _ => true
  | _ => false

/-- Both threads finished. -/
def bothDone (s : RaceSt) : Bool := isDoneB s.t0 && isDoneB s.t1

/-- Outcome-consistency requirement on one finished thread: observing
the already-initialized error requires a published handle, and a failed
creation requires an existing JVM. -/
def outcomeOk (s : RaceSt) : TPc → Bool
  | .done .alreadyInit => s.jj
  | .done .createFailed => s.vmCreated
  | _ => true

/-- Inductive invariant of the race model: the handle is published
exactly when a JVM exists, the success tally matches JVM existence, and
finished outcomes are consistent. -/
def raceInv (s : RaceSt) : Bool :=
  (s.jj == s.vmCreated)
  && (successCount s == if s.vmCreated then 1 else 0)
  && outcomeOk s s.t0 && outcomeOk s s.t1

/-- Concrete init configuration: creation succeeds, re-pinning fails. -/
def cfgRepinFail : InitCfg :=
  { path := .str "/usr/lib/jvm/lib/server/libjvm.so",
    options := [.str "-Xmx64m"],
    dlopenOk := true, dlsymOk := true, createOk := true,
    dladdrOk := true, repinOk := false }

/-- Concrete init configuration: the `dlopen` of libjvm fails. -/
def cfgDlopenFail : InitCfg :=
  { cfgRepinFail with dlopenOk := false, repinOk := true }

/-- Concrete init configuration for the C7 witness: creation succeeds
and re-pinning fails, with an empty option list. -/
def cfgRepinFail2 : InitCfg := { cfgRepinFail with options := [] }

lemma attachTrace_all_neutral (b : Bool) :
    (attachTrace b).all neutralBefore = true := by
  cases b <;> simp [attachTrace, neutralBefore]

lemma llScopedGo_append_neutral (L : Nat) (l1 l2 : List CallEv)
    (h : l1.all neutralBefore = true) :
    llScopedGo L (l1 ++ l2) = llScopedGo L l2 := by
  induction l1 with
  | nil => rfl
  | cons e rest ih =>
      simp only [List.all_cons, Bool.and_eq_true] at h
      obtain ⟨he, hr⟩ := h
      cases e <;> simp_all [llScopedGo, neutralBefore]

lemma llScopedGo_of_all_neutral (L : Nat) (l : List CallEv)
    (h : l.all neutralBefore = true) : llScopedGo L l = true := by
  have h2 := llScopedGo_append_neutral L l [] h
  simpa [llScopedGo] using h2

lemma convertLoop_all_neutral (args : List LuaValue) :
    ∀ i : Nat, ((convertLoop args i).1).all neutralBefore = true := by
  induction args with
  | nil => intro i; rfl
  | cons v rest ih =>
      intro i
      by_cases hv : v.isnil = true
      · simp [convertLoop, hv, ih]
      · rcases hc : checkstring v with _ | s
        · simp [convertLoop, hv, hc, neutralBefore]
        · simp [convertLoop, hv, hc, neutralBefore, ih]

lemma deleteLoop_all_isDelete (jargs : List (Option String)) :
    ∀ i : Nat, (deleteLoop jargs i).all isDelete = true := by
  induction jargs with
  | nil => intro i; rfl
  | cons o rest ih =>
      intro i
      cases o <;> simp [deleteLoop, isDelete, ih]

lemma callTail_all_noPublish (mr : Option String × Bool) :
    (callTail mr).all noPublishEv = true := by
  rcases mr with ⟨r, b⟩
  cases b
  · cases r <;> simp [callTail, noPublishEv]
  · simp [callTail, noPublishEv]

lemma deleteLoop_all_noPublish (jargs : List (Option String)) (i : Nat) :
    (deleteLoop jargs i).all noPublishEv = true := by
  have h := deleteLoop_all_isDelete jargs i
  rw [List.all_eq_true] at h ⊢
  intro e he
  have := h e he
  cases e <;> simp_all [isDelete, noPublishEv]

lemma reachesPublish_unpack (cfg : CallCfg)
    (h : reachesPublish cfg = true) :
    cfg.jvmCreated = true
    ∧ (cfg.envCached || cfg.getEnvOk || cfg.attachOk) = true
    ∧ (∃ s1, checkstring cfg.className = some s1)
    ∧ (∃ s2, checkstring cfg.methodName = some s2)
    ∧ (∃ s3, checkstring cfg.methodSignature = some s3)
    ∧ cfg.classFound = true
    ∧ cfg.methodFound = true
    ∧ (∃ jargs, (convertLoop cfg.args 0).2 = some jargs) := by
  simp only [reachesPublish, Bool.and_eq_true, Option.isSome_iff_exists] at h
  tauto

lemma call_eq_publish (cfg : CallCfg) (jargs : List (Option String))
    (hj : (convertLoop cfg.args 0).2 = some jargs)
    (h1 : cfg.jvmCreated = true)
    (h2 : (cfg.envCached || cfg.getEnvOk || cfg.attachOk) = true)
    (s1 : String) (h3 : checkstring cfg.className = some s1)
    (s2 : String) (h4 : checkstring cfg.methodName = some s2)
    (s3 : String) (h5 : checkstring cfg.methodSignature = some s3)
    (h6 : cfg.classFound = true)
    (h7 : cfg.methodFound = true)
    (hLL : cfg.activeLL = none) :
    call cfg = (publishTrace cfg jargs, callTailOutcome (cfg.method jargs)) := by
  rcases hmr : cfg.method jargs with ⟨r, p⟩
  cases p
  · cases r <;>
      simp [call, publishTrace, callTail, callTailOutcome, h1, h2, h3, h4, h5,
        h6, h7, hj, hLL, hmr, List.append_assoc]
  · simp [call, publishTrace, callTail, callTailOutcome, h1, h2, h3, h4, h5,
      h6, h7, hj, hLL, hmr, List.append_assoc]

lemma call_eq_assert (cfg : CallCfg) (jargs : List (Option String))
    (hj : (convertLoop cfg.args 0).2 = some jargs)
    (h1 : cfg.jvmCreated = true)
    (h2 : (cfg.envCached || cfg.getEnvOk || cfg.attachOk) = true)
    (s1 : String) (h3 : checkstring cfg.className = some s1)
    (s2 : String) (h4 : checkstring cfg.methodName = some s2)
    (s3 : String) (h5 : checkstring cfg.methodSignature = some s3)
    (h6 : cfg.classFound = true)
    (h7 : cfg.methodFound = true)
    (x : Nat) (hLL : cfg.activeLL = some x) :
    call cfg =
      (attachTrace cfg.envCached ++ [.findClass true, .getStaticMethod true] ++
        (convertLoop cfg.args 0).1 ++ [.assertLLIsNull false],
       .assertionFailure) := by
  simp [call, h1, h2, h3, h4, h5, h6, h7, hj, hLL, List.append_assoc]

lemma call_no_publish (cfg : CallCfg) (h : reachesPublish cfg = false) :
    ((call cfg).1.all neutralBefore) = true := by
  cases h1 : cfg.jvmCreated
  · simp [call, h1]
  · cases h2 : (cfg.envCached || cfg.getEnvOk || cfg.attachOk)
    · simp [call, h1, h2, neutralBefore]
    · rcases h3 : checkstring cfg.className with _ | s1
      · simp [call, h1, h2, h3, List.all_append, attachTrace_all_neutral,
          neutralBefore]
      · rcases h4 : checkstring cfg.methodName with _ | s2
        · simp [call, h1, h2, h3, h4, List.all_append, attachTrace_all_neutral,
            neutralBefore]
        · rcases h5 : checkstring cfg.methodSignature with _ | s3
          · simp [call, h1, h2, h3, h4, h5, List.all_append,
              attachTrace_all_neutral, neutralBefore]
          · cases h6 : cfg.classFound
            · simp [call, h1, h2, h3, h4, h5, h6, List.all_append,
                attachTrace_all_neutral, neutralBefore]
            · cases h7 : cfg.methodFound
              · simp [call, h1, h2, h3, h4, h5, h6, h7, List.all_append,
                  attachTrace_all_neutral, neutralBefore]
              · rcases h8 : (convertLoop cfg.args 0).2 with _ | jargs
                · simp [call, h1, h2, h3, h4, h5, h6, h7, h8, List.all_append,
                    attachTrace_all_neutral, neutralBefore,
                    convertLoop_all_neutral]
                · exfalso
                  rw [reachesPublish, h1, h2, h3, h4, h5, h6, h7, h8] at h
                  simp at h

lemma all_mono {p q : CallEv → Bool} (h : ∀ e, p e = true → q e = true)
    (l : List CallEv) (hl : l.all p = true) : l.all q = true := by
  rw [List.all_eq_true] at hl ⊢
  exact fun e he => h e (hl e he)

lemma neutral_imp_ndc (e : CallEv) (h : neutralBefore e = true) :
    notDeleteNorClear e = true := by
  cases e <;> simp_all [neutralBefore, notDeleteNorClear]

lemma neutral_imp_notSet (e : CallEv) (h : neutralBefore e = true) :
    (!(isSetLL e)) = true := by
  cases e <;> simp_all [neutralBefore, isSetLL]

lemma neutral_imp_notExCheck (e : CallEv) (h : neutralBefore e = true) :
    (!(isExCheck e)) = true := by
  cases e <;> simp_all [neutralBefore, isExCheck]

lemma isDelete_imp_notExCheck (e : CallEv) (h : isDelete e = true) :
    (!(isExCheck e)) = true := by
  cases e <;> simp_all [isDelete, isExCheck]

lemma deletePositions_eq_nil_of_neutral (l : List CallEv)
    (h : l.all neutralBefore = true) : deletePositions l = [] := by
  rw [List.all_eq_true] at h
  rw [deletePositions, List.filterMap_eq_nil]
  intro e he
  have := h e he
  cases e <;> simp_all [neutralBefore]

lemma createdPositions_eq_nil_of_isDelete (l : List CallEv)
    (h : l.all isDelete = true) : createdPositions l = [] := by
  rw [List.all_eq_true] at h
  rw [createdPositions, List.filterMap_eq_nil]
  intro e he
  have := h e he
  cases e <;> simp_all [isDelete]

lemma noDeleteBeforeClear_append (l1 l2 : List CallEv)
    (h : l1.all notDeleteNorClear = true) :
    noDeleteBeforeClear (l1 ++ l2) = noDeleteBeforeClear l2 := by
  induction l1 with
  | nil => rfl
  | cons e rest ih =>
      simp only [List.all_cons, Bool.and_eq_true] at h
      obtain ⟨he, hr⟩ := h
      cases e <;> simp_all [noDeleteBeforeClear, notDeleteNorClear]

lemma noDeleteAfterExCheck_append (l1 l2 : List CallEv)
    (h : l1.all (fun e => !(isExCheck e)) = true) :
    noDeleteAfterExCheck (l1 ++ l2) = noDeleteAfterExCheck l2 := by
  induction l1 with
  | nil => rfl
  | cons e rest ih =>
      simp only [List.all_cons, Bool.and_eq_true] at h
      obtain ⟨he, hr⟩ := h
      cases e <;> simp_all [noDeleteAfterExCheck, isExCheck]

lemma convertLoop_spec (args : List LuaValue) :
    ∀ (i : Nat) (jargs : List (Option String)),
    (convertLoop args i).2 = some jargs →
    jargs = jargsOf args
    ∧ createdPositions (convertLoop args i).1 = nonNilIdx args i
    ∧ deletePositions (deleteLoop jargs i) = nonNilIdx args i := by
  induction args with
  | nil =>
      intro i jargs h
      simp only [convertLoop, Option.some.injEq] at h
      subst h
      simp [convertLoop, jargsOf, createdPositions, nonNilIdx, deleteLoop,
        deletePositions]
  | cons v rest ih =>
      intro i jargs h
      by_cases hv : v.isnil = true
      · simp [convertLoop, hv] at h
        rcases h with ⟨l, hl, rfl⟩
        obtain ⟨h1, h2, h3⟩ := ih (i + 1) l hl
        refine ⟨by simp [jargsOf, hv, h1], ?_, ?_⟩
        · simpa [convertLoop, hv, nonNilIdx, createdPositions] using h2
        · simpa [deleteLoop, nonNilIdx, hv, deletePositions] using h3
      · rcases hc : checkstring v with _ | s
        · simp [convertLoop, hv, hc] at h
        · simp [convertLoop, hv, hc] at h
          rcases h with ⟨l, hl, rfl⟩
          obtain ⟨h1, h2, h3⟩ := ih (i + 1) l hl
          refine ⟨by simp [jargsOf, hv, hc, h1], ?_, ?_⟩
          · have ht : (convertLoop (v :: rest) i).1 =
                .newStringUTF i s :: (convertLoop rest (i + 1)).1 := by
              simp [convertLoop, hv, hc]
            rw [ht, show createdPositions (.newStringUTF i s ::
                (convertLoop rest (i + 1)).1) =
                i :: createdPositions (convertLoop rest (i + 1)).1 from by
              simp [createdPositions]]
            rw [h2, nonNilIdx, if_neg hv]
          · have hd : deleteLoop (some s :: l) i =
                .deleteLocalRef i :: deleteLoop l (i + 1) := rfl
            rw [hd, show deletePositions (.deleteLocalRef i ::
                deleteLoop l (i + 1)) =
                i :: deletePositions (deleteLoop l (i + 1)) from by
              simp [deletePositions]]
            rw [h3, nonNilIdx, if_neg hv]

lemma nonNilIdx_ge (args : List LuaValue) :
    ∀ (i j : Nat), j ∈ nonNilIdx args i → i ≤ j := by
  induction args with
  | nil => intro i j hj; simp [nonNilIdx] at hj
  | cons v rest ih =>
      intro i j hj
      by_cases hv : v.isnil = true
      · rw [nonNilIdx, if_pos hv] at hj
        exact Nat.le_of_succ_le (ih (i + 1) j hj)
      · rw [nonNilIdx, if_neg hv] at hj
        rcases List.mem_cons.mp hj with rfl | hj2
        · exact Nat.le_refl j
        · exact Nat.le_of_succ_le (ih (i + 1) j hj2)

lemma nonNilIdx_pairwise (args : List LuaValue) :
    ∀ i : Nat, List.Pairwise (fun a b => a < b) (nonNilIdx args i) := by
  induction args with
  | nil => intro i; simp [nonNilIdx]
  | cons v rest ih =>
      intro i
      by_cases hv : v.isnil = true
      · rw [nonNilIdx, if_pos hv]; exact ih (i + 1)
      · rw [nonNilIdx, if_neg hv]
        refine List.pairwise_cons.mpr ⟨?_, ih (i + 1)⟩
        intro j hj
        exact Nat.lt_of_succ_le (nonNilIdx_ge rest (i + 1) j hj)

lemma publishTrace_llScoped (cfg : CallCfg) (jargs : List (Option String)) :
    llScopedGo cfg.luaStateId (publishTrace cfg jargs) = true := by
  rw [publishTrace]
  simp only [List.append_assoc]
  rw [llScopedGo_append_neutral _ _ _ (attachTrace_all_neutral cfg.envCached)]
  rw [llScopedGo_append_neutral _ _ _ (by simp [neutralBefore])]
  rw [llScopedGo_append_neutral _ _ _ (convertLoop_all_neutral cfg.args 0)]
  simp only [List.cons_append, List.nil_append]
  simp [llScopedGo, neutralBefore, List.all_append,
    deleteLoop_all_noPublish, callTail_all_noPublish, noPublishEv]

lemma deletePositions_append (l1 l2 : List CallEv) :
    deletePositions (l1 ++ l2) = deletePositions l1 ++ deletePositions l2 := by
  simp [deletePositions]

lemma createdPositions_append (l1 l2 : List CallEv) :
    createdPositions (l1 ++ l2) = createdPositions l1 ++ createdPositions l2 := by
  simp [createdPositions]

lemma attachTrace_deletePositions (b : Bool) :
    deletePositions (attachTrace b) = [] := by
  cases b <;> simp [attachTrace, deletePositions]

lemma attachTrace_createdPositions (b : Bool) :
    createdPositions (attachTrace b) = [] := by
  cases b <;> simp [attachTrace, createdPositions]

lemma callTail_deletePositions (mr : Option String × Bool) :
    deletePositions (callTail mr) = [] := by
  rcases mr with ⟨r, b⟩
  cases b
  · cases r <;> simp [callTail, deletePositions]
  · simp [callTail, deletePositions]

lemma callTail_createdPositions (mr : Option String × Bool) :
    createdPositions (callTail mr) = [] := by
  rcases mr with ⟨r, b⟩
  cases b
  · cases r <;> simp [callTail, createdPositions]
  · simp [callTail, createdPositions]

lemma callTail_all_notDelete (mr : Option String × Bool) :
    (callTail mr).all (fun e => !(isDelete e)) = true := by
  rcases mr with ⟨r, b⟩
  cases b
  · cases r <;> simp [callTail, isDelete]
  · simp [callTail, isDelete]

lemma deleteLoop_createdPositions (jargs : List (Option String)) (i : Nat) :
    createdPositions (deleteLoop jargs i) = [] :=
  createdPositions_eq_nil_of_isDelete _ (deleteLoop_all_isDelete jargs i)

lemma publishTrace_deletePositions (cfg : CallCfg)
    (jargs : List (Option String))
    (hj : (convertLoop cfg.args 0).2 = some jargs) :
    deletePositions (publishTrace cfg jargs) = nonNilIdx cfg.args 0 := by
  obtain ⟨-, -, h3⟩ := convertLoop_spec cfg.args 0 jargs hj
  simp only [publishTrace, deletePositions_append]
  rw [attachTrace_deletePositions,
    deletePositions_eq_nil_of_neutral _ (convertLoop_all_neutral cfg.args 0),
    callTail_deletePositions, h3]
  simp [deletePositions]

lemma publishTrace_createdPositions (cfg : CallCfg)
    (jargs : List (Option String))
    (hj : (convertLoop cfg.args 0).2 = some jargs) :
    createdPositions (publishTrace cfg jargs) = nonNilIdx cfg.args 0 := by
  obtain ⟨-, h2, -⟩ := convertLoop_spec cfg.args 0 jargs hj
  simp only [publishTrace, createdPositions_append]
  rw [attachTrace_createdPositions, h2,
    callTail_createdPositions, deleteLoop_createdPositions]
  simp [createdPositions]

lemma publishTrace_ndbc (cfg : CallCfg) (jargs : List (Option String)) :
    noDeleteBeforeClear (publishTrace cfg jargs) = true := by
  rw [publishTrace]
  simp only [List.append_assoc]
  rw [noDeleteBeforeClear_append _ _
    (all_mono neutral_imp_ndc _ (attachTrace_all_neutral cfg.envCached))]
  rw [noDeleteBeforeClear_append _ _ (by simp [notDeleteNorClear])]
  rw [noDeleteBeforeClear_append _ _
    (all_mono neutral_imp_ndc _ (convertLoop_all_neutral cfg.args 0))]
  simp [noDeleteBeforeClear]

lemma publishTrace_ndaec (cfg : CallCfg) (jargs : List (Option String)) :
    noDeleteAfterExCheck (publishTrace cfg jargs) = true := by
  rw [publishTrace]
  simp only [List.append_assoc]
  rw [noDeleteAfterExCheck_append _ _
    (all_mono neutral_imp_notExCheck _ (attachTrace_all_neutral cfg.envCached))]
  rw [noDeleteAfterExCheck_append _ _ (by simp [isExCheck])]
  rw [noDeleteAfterExCheck_append _ _
    (all_mono neutral_imp_notExCheck _ (convertLoop_all_neutral cfg.args 0))]
  rw [noDeleteAfterExCheck_append _ _ (by simp [isExCheck])]
  rw [noDeleteAfterExCheck_append _ _
    (all_mono isDelete_imp_notExCheck _ (deleteLoop_all_isDelete jargs 0))]
  simp [noDeleteAfterExCheck, callTail_all_notDelete]

/-- C1: On every thread, the `LL` slot (ActiveScriptState) is set only
for the duration of the managed-method invocation inside `call`: when
`LL` is null on entry, the trace either never publishes the slot (and
then performs no invocation, reclamation or exception check at all), or
publishes it in one contiguous set/invoke/clear block, with reference
reclamation and exception translation strictly after the clearing; when
`LL` is already non-null on entry and the execution reaches the
publication point, the assertion-grade check fails (no recoverable Lua
error is produced and the slot is never set). -/
theorem activeScriptState_window (cfg : CallCfg) :
    (cfg.activeLL = none → llScopedGo cfg.luaStateId (call cfg).1 = true)
    ∧ (∀ x, cfg.activeLL = some x → reachesPublish cfg = true →
        (call cfg).2 = CallOutcome.assertionFailure
        ∧ ((call cfg).1.all fun e => !(isSetLL e)) = true
        ∧ ∀ m, (call cfg).2 ≠ CallOutcome.luaError m) := by
  constructor
  · intro hLL
    cases hr : reachesPublish cfg
    · exact llScopedGo_of_all_neutral _ _ (call_no_publish cfg hr)
    · obtain ⟨h1, h2, ⟨s1, h3⟩, ⟨s2, h4⟩, ⟨s3, h5⟩, h6, h7, jargs, hj⟩ :=
        reachesPublish_unpack cfg hr
      rw [call_eq_publish cfg jargs hj h1 h2 s1 h3 s2 h4 s3 h5 h6 h7 hLL]
      exact publishTrace_llScoped cfg jargs
  · intro x hLL hr
    obtain ⟨h1, h2, ⟨s1, h3⟩, ⟨s2, h4⟩, ⟨s3, h5⟩, h6, h7, jargs, hj⟩ :=
      reachesPublish_unpack cfg hr
    rw [call_eq_assert cfg jargs hj h1 h2 s1 h3 s2 h4 s3 h5 h6 h7 x hLL]
    refine ⟨rfl, ?_, by intro m; simp⟩
    simp only [List.all_append, Bool.and_eq_true]
    refine ⟨⟨⟨?_, by simp [isSetLL]⟩, ?_⟩, by simp [isSetLL]⟩
    · exact all_mono neutral_imp_notSet _ (attachTrace_all_neutral cfg.envCached)
    · exact all_mono neutral_imp_notSet _ (convertLoop_all_neutral cfg.args 0)

/-- Witness for C1 at concrete inputs: a complete call with `LL` null on
entry produces a correctly scoped trace, and a nested call with `LL`
already set dies on the assertion. -/
theorem activeScriptState_window_witness :
    llScopedGo 7 (call cfgWindowRun).1 = true
    ∧ (call cfgWindowNested).2 = CallOutcome.assertionFailure :=
  ⟨(activeScriptState_window cfgWindowRun).1 rfl,
   ((activeScriptState_window cfgWindowNested).2 5 rfl rfl).1⟩

/-- C6: Whenever the managed-method invocation is reached, the argument
references deleted after the call are exactly the ones created during
argument conversion (one reference per non-nil argument, each deleted
exactly once, positions strictly increasing), every deletion happens
after the clearing of `LL`, and every deletion happens before the
pending-exception check, regardless of whether the invoked method left
an exception pending. -/
theorem call_arg_refs_reclaimed (cfg : CallCfg)
    (h : reachesPublish cfg = true) (hLL : cfg.activeLL = none) :
    deletePositions (call cfg).1 = nonNilIdx cfg.args 0
    ∧ createdPositions (call cfg).1 = nonNilIdx cfg.args 0
    ∧ List.Pairwise (fun a b => a < b) (nonNilIdx cfg.args 0)
    ∧ noDeleteBeforeClear (call cfg).1 = true
    ∧ noDeleteAfterExCheck (call cfg).1 = true := by
  obtain ⟨h1, h2, ⟨s1, h3⟩, ⟨s2, h4⟩, ⟨s3, h5⟩, h6, h7, jargs, hj⟩ :=
    reachesPublish_unpack cfg h
  rw [call_eq_publish cfg jargs hj h1 h2 s1 h3 s2 h4 s3 h5 h6 h7 hLL]
  exact ⟨publishTrace_deletePositions cfg jargs hj,
    publishTrace_createdPositions cfg jargs hj,
    nonNilIdx_pairwise cfg.args 0,
    publishTrace_ndbc cfg jargs,
    publishTrace_ndaec cfg jargs⟩

/-- Witness for C6 at a concrete input on the exception-pending path:
both non-nil argument references (positions 0 and 2) are reclaimed. -/
theorem call_arg_refs_reclaimed_witness :
    deletePositions (call cfgReclaimThrow).1 = [0, 2] :=
  (call_arg_refs_reclaimed cfgReclaimThrow rfl rfl).1

/-- C4: When `call` returns without error, a null result reference is
returned to the script as nil, and a non-null result is pushed as a
script string byte-for-byte equal to the returned string, after which
the native string form of the result is released. -/
theorem call_result_conv (cfg : CallCfg)
    (h : reachesPublish cfg = true) (hLL : cfg.activeLL = none)
    (hnp : (cfg.method (jargsOf cfg.args)).2 = false) :
    (call cfg).2 = CallOutcome.ret (cfg.method (jargsOf cfg.args)).1
    ∧ ((cfg.method (jargsOf cfg.args)).1 = none →
        CallEv.pushNil ∈ (call cfg).1)
    ∧ (∀ s, (cfg.method (jargsOf cfg.args)).1 = some s →
        CallEv.pushString s ∈ (call cfg).1
        ∧ CallEv.releaseStringUTFChars ∈ (call cfg).1) := by
  obtain ⟨h1, h2, ⟨s1, h3⟩, ⟨s2, h4⟩, ⟨s3, h5⟩, h6, h7, jargs, hj⟩ :=
    reachesPublish_unpack cfg h
  obtain ⟨hje, -, -⟩ := convertLoop_spec cfg.args 0 jargs hj
  subst hje
  rw [call_eq_publish cfg _ hj h1 h2 s1 h3 s2 h4 s3 h5 h6 h7 hLL]
  refine ⟨by simp [callTailOutcome, hnp], ?_, ?_⟩
  · intro hret
    simp [publishTrace, callTail, hnp, hret]
  · intro s hret
    constructor <;> simp [publishTrace, callTail, hnp, hret]

/-- Witness for C4 at concrete inputs: a method returning null yields
nil; a method echoing a string yields that exact string. -/
theorem call_result_conv_witness :
    (call cfgResultNull).2 = CallOutcome.ret none
    ∧ (call cfgResultEcho).2 = CallOutcome.ret (some "hello") := by
  constructor
  · rw [(call_result_conv cfgResultNull rfl rfl rfl).1]
    rfl
  · rw [(call_result_conv cfgResultEcho rfl rfl rfl).1]
    rfl

/-- C5: The converted argument vector handed to the managed method is
exactly the elementwise conversion of the Lua arguments: a true null
reference at every nil position (never the text form of null), and the
checked string form at every other position. -/
theorem call_arg_conv (cfg : CallCfg)
    (h : reachesPublish cfg = true) (hLL : cfg.activeLL = none) :
    CallEv.callStaticMethod (jargsOf cfg.args) ∈ (call cfg).1
    ∧ (∀ i v, cfg.args.get? i = some v → v.isnil = true →
        (jargsOf cfg.args).get? i = some none
        ∧ (jargsOf cfg.args).get? i ≠ some (some "null"))
    ∧ (∀ i v, cfg.args.get? i = some v → v.isnil = false →
        (jargsOf cfg.args).get? i = some (checkstring v)) := by
  obtain ⟨h1, h2, ⟨s1, h3⟩, ⟨s2, h4⟩, ⟨s3, h5⟩, h6, h7, jargs, hj⟩ :=
    reachesPublish_unpack cfg h
  obtain ⟨hje, -, -⟩ := convertLoop_spec cfg.args 0 jargs hj
  subst hje
  rw [call_eq_publish cfg _ hj h1 h2 s1 h3 s2 h4 s3 h5 h6 h7 hLL]
  refine ⟨by simp [publishTrace], ?_, ?_⟩
  · intro i v hv hn
    rw [jargsOf, List.get?_map, hv]
    simp [hn]
  · intro i v hv hn
    rw [jargsOf, List.get?_map, hv]
    simp [hn]

/-- Witness for C5 at a concrete input: a nil at position 1 is passed as
a null reference and a number at position 2 as its string form. -/
theorem call_arg_conv_witness :
    CallEv.callStaticMethod [some "a", none, some "3"] ∈
      (call cfgArgMix).1 :=
  (call_arg_conv cfgArgMix rfl rfl).1

/-- C2: Every inbound primitive invoked with no active script context
(`LL` null) raises a `java/lang/RuntimeException` carrying the fixed
diagnostic message about the null Lua state, and performs no
interpreter operation; invoked with an active script context it raises
no exception and performs exactly the corresponding interpreter stack
operation, passing values through. -/
theorem inbound_guard :
    runtimeExNull.className = "java/lang/RuntimeException"
    ∧ runtimeExNull.message =
        "lujavrite: unable to call Lua from Java: Lua state is NULL"
    ∧ (∀ name, (Java_io_kojan_lujavrite_Lua_getglobal none name).thrown =
        some runtimeExNull)
    ∧ (∀ ls name,
        (Java_io_kojan_lujavrite_Lua_getglobal (some ls) name).thrown = none
        ∧ (Java_io_kojan_lujavrite_Lua_getglobal (some ls) name).ops =
            [.getglobal name]
        ∧ (Java_io_kojan_lujavrite_Lua_getglobal (some ls) name).value =
            (lua_getglobal ls name).2
        ∧ (Java_io_kojan_lujavrite_Lua_getglobal (some ls) name).state =
            some (lua_getglobal ls name).1)
    ∧ (∀ index name,
        (Java_io_kojan_lujavrite_Lua_getfield none index name).thrown =
          some runtimeExNull)
    ∧ (∀ ls index name,
        (Java_io_kojan_lujavrite_Lua_getfield (some ls) index name).thrown =
            none
        ∧ (Java_io_kojan_lujavrite_Lua_getfield (some ls) index name).ops =
            [.getfield index name]
        ∧ (Java_io_kojan_lujavrite_Lua_getfield (some ls) index name).value =
            (lua_getfield ls index name).2
        ∧ (Java_io_kojan_lujavrite_Lua_getfield (some ls) index name).state =
            some (lua_getfield ls index name).1)
    ∧ (∀ s, (Java_io_kojan_lujavrite_Lua_pushstring none s).thrown =
        some runtimeExNull)
    ∧ (∀ ls s,
        (Java_io_kojan_lujavrite_Lua_pushstring (some ls) s).thrown = none
        ∧ (Java_io_kojan_lujavrite_Lua_pushstring (some ls) s).ops =
            [.pushstring s]
        ∧ (Java_io_kojan_lujavrite_Lua_pushstring (some ls) s).state =
            some (lua_pushstring ls s))
    ∧ (∀ a b c, (Java_io_kojan_lujavrite_Lua_pcall none a b c).thrown =
        some runtimeExNull)
    ∧ (∀ ls a b c,
        (Java_io_kojan_lujavrite_Lua_pcall (some ls) a b c).thrown = none
        ∧ (Java_io_kojan_lujavrite_Lua_pcall (some ls) a b c).ops =
            [.pcall a b c]
        ∧ (Java_io_kojan_lujavrite_Lua_pcall (some ls) a b c).value =
            (lua_pcall ls a b c).2
        ∧ (Java_io_kojan_lujavrite_Lua_pcall (some ls) a b c).state =
            some (lua_pcall ls a b c).1)
    ∧ (∀ index, (Java_io_kojan_lujavrite_Lua_tostring none index).thrown =
        some runtimeExNull)
    ∧ (∀ ls index,
        (Java_io_kojan_lujavrite_Lua_tostring (some ls) index).thrown = none
        ∧ (Java_io_kojan_lujavrite_Lua_tostring (some ls) index).ops =
            [.tostring index]
        ∧ (Java_io_kojan_lujavrite_Lua_tostring (some ls) index).value =
            lua_tostring ls index)
    ∧ (∀ index, (Java_io_kojan_lujavrite_Lua_remove none index).thrown =
        some runtimeExNull)
    ∧ (∀ ls index,
        (Java_io_kojan_lujavrite_Lua_remove (some ls) index).thrown = none
        ∧ (Java_io_kojan_lujavrite_Lua_remove (some ls) index).ops =
            [.remove index]
        ∧ (Java_io_kojan_lujavrite_Lua_remove (some ls) index).state =
            some (lua_remove ls index))
    ∧ (∀ n, (Java_io_kojan_lujavrite_Lua_pop none n).thrown =
        some runtimeExNull)
    ∧ (∀ ls n,
        (Java_io_kojan_lujavrite_Lua_pop (some ls) n).thrown = none
        ∧ (Java_io_kojan_lujavrite_Lua_pop (some ls) n).ops = [.pop n]
        ∧ (Java_io_kojan_lujavrite_Lua_pop (some ls) n).state =
            some (lua_pop ls n)) :=
  ⟨rfl, rfl,
   fun _ => rfl, fun _ _ => ⟨rfl, rfl, rfl, rfl⟩,
   fun _ _ => rfl, fun _ _ _ => ⟨rfl, rfl, rfl, rfl⟩,
   fun _ => rfl, fun _ _ => ⟨rfl, rfl, rfl⟩,
   fun _ _ _ => rfl, fun _ _ _ _ => ⟨rfl, rfl, rfl, rfl⟩,
   fun _ => rfl, fun _ _ => ⟨rfl, rfl, rfl⟩,
   fun _ => rfl, fun _ _ => ⟨rfl, rfl, rfl⟩,
   fun _ => rfl, fun _ _ => ⟨rfl, rfl, rfl⟩⟩

/-- C10: With no active script context, every inbound primitive returns
the zero value of its declared return type (0 for the int-returning
primitives, the null string reference for `tostring`, plain return for
the void ones), performs no interpreter stack operation, and leaves no
state behind — the complete result record is the guarded one. -/
theorem inbound_null_state :
    (∀ name, Java_io_kojan_lujavrite_Lua_getglobal none name =
      ⟨0, some runtimeExNull, none, []⟩)
    ∧ (∀ index name, Java_io_kojan_lujavrite_Lua_getfield none index name =
      ⟨0, some runtimeExNull, none, []⟩)
    ∧ (∀ s, Java_io_kojan_lujavrite_Lua_pushstring none s =
      ⟨(), some runtimeExNull, none, []⟩)
    ∧ (∀ a b c, Java_io_kojan_lujavrite_Lua_pcall none a b c =
      ⟨0, some runtimeExNull, none, []⟩)
    ∧ (∀ index, Java_io_kojan_lujavrite_Lua_tostring none index =
      ⟨none, some runtimeExNull, none, []⟩)
    ∧ (∀ index, Java_io_kojan_lujavrite_Lua_remove none index =
      ⟨(), some runtimeExNull, none, []⟩)
    ∧ (∀ n, Java_io_kojan_lujavrite_Lua_pop none n =
      ⟨(), some runtimeExNull, none, []⟩) :=
  ⟨fun _ => rfl, fun _ _ => rfl, fun _ => rfl, fun _ _ _ => rfl,
   fun _ => rfl, fun _ => rfl, fun _ => rfl⟩

lemma raceInv_step : ∀ (s : RaceSt) (t : Bool),
    raceInv s = true → raceInv (raceStep s t) = true := by decide

lemma raceInv_foldl (sched : List Bool) :
    ∀ s : RaceSt, raceInv s = true →
      raceInv (sched.foldl raceStep s) = true := by
  induction sched with
  | nil => intro s h; exact h
  | cons t rest ih =>
      intro s h
      exact ih (raceStep s t) (raceInv_step s t h)

lemma raceInv_run (sched : List Bool) : raceInv (raceRun sched) = true :=
  raceInv_foldl sched raceInit (by decide)

/-- C3 (code evaluated at the failing input): after a successful `init`
on thread 0, the process-wide runtime handle is present and
`initialized` on thread 0 reports true, yet `initialized` evaluated on
thread 1 reports false, because the C function tests the thread-local
`JNIEnv` `J` instead of the process-wide `JJ` its own documentation
describes. -/
theorem initialized_thread_divergence :
    (initSuccessOn false ⟨false, false, false⟩).jj = true
    ∧ initializedOn false (initSuccessOn false ⟨false, false, false⟩) = true
    ∧ initializedOn true (initSuccessOn false ⟨false, false, false⟩) = false := by
  decide

lemma init_already (cfg : InitCfg) (s : InitSt) (h : s.jj = true) :
    init cfg s = (s, .luaError "JVM has already been initialized") := by
  rw [init, if_pos (by simp [h])]

lemma init_not_already (cfg : InitCfg) (s : InitSt) (h : s.jj = false) :
    (init cfg s).2 ≠ InitOutcome.luaError "JVM has already been initialized" := by
  rw [init, if_neg (by simp [h])]
  rcases checkstring cfg.path with _ | p
  · simp
  · cases ho : cfg.dlopenOk
    · simp [ho]
    · cases hy : cfg.dlsymOk
      · simp [ho, hy]
      · rcases checkstringAll cfg.options with _ | opts
        · simp [ho, hy]
        · cases hc : cfg.createOk
          · simp [ho, hy, hc]
          · cases hd : cfg.dladdrOk
            · simp [ho, hy, hc, hd]
            · cases hrp : cfg.repinOk
              · simp [ho, hy, hc, hd, hrp]
              · simp [ho, hy, hc, hd, hrp]

lemma init_no_create (cfg : InitCfg) (s : InitSt) (h : s.jj = false)
    (hr : (reachesCreation cfg && cfg.createOk) = false) :
    (init cfg s).1 = s ∧ (init cfg s).2 ≠ InitOutcome.ok := by
  rw [init, if_neg (by simp [h])]
  rcases hp : checkstring cfg.path with _ | p
  · simp
  · cases ho : cfg.dlopenOk
    · simp [ho]
    · cases hy : cfg.dlsymOk
      · simp [ho, hy]
      · rcases ha : checkstringAll cfg.options with _ | opts
        · simp [ho, hy, ha]
        · cases hc : cfg.createOk
          · simp [ho, hy, ha, hc]
          · exfalso
            rw [reachesCreation, hp, ho, hy, ha, hc] at hr
            simp at hr

lemma init_create (cfg : InitCfg) (s : InitSt) (h : s.jj = false)
    (hr : (reachesCreation cfg && cfg.createOk) = true) :
    (init cfg s).1 = { jj := true, j := true } := by
  rw [Bool.and_eq_true, reachesCreation] at hr
  obtain ⟨hr1, hc⟩ := hr
  simp only [Bool.and_eq_true, Option.isSome_iff_exists] at hr1
  obtain ⟨⟨⟨⟨p, hp⟩, ho⟩, hy⟩, opts, ha⟩ := hr1
  rw [init, if_neg (by simp [h]), hp]
  simp only [ho, hy, hc, ha]
  cases hd : cfg.dladdrOk
  · simp [hd]
  · cases hrp : cfg.repinOk
    · simp [hd, hrp]
    · simp [hd, hrp]

/-- C7 counterexample at a concrete input: when `JNI_CreateJavaVM`
succeeds but the self-repinning `dlopen` fails, `init` reports a
recoverable script error, yet the runtime handle remains stored:
`initialized` now reports true and a subsequent `init` is rejected as
already initialized — contradicting the claim that no handle remains
stored after any failure. -/
theorem init_repin_keeps_handle :
    (init cfgRepinFail ⟨false, false⟩).2 =
        InitOutcome.luaError "dlopen(lujavrite.so) error"
    ∧ (init cfgRepinFail ⟨false, false⟩).1.jj = true
    ∧ initialized (init cfgRepinFail ⟨false, false⟩).1 = true
    ∧ (init cfgRepinFail (init cfgRepinFail ⟨false, false⟩).1).2 =
        InitOutcome.luaError "JVM has already been initialized" :=
  ⟨rfl, rfl, rfl, rfl⟩

/-- C7 as amended: `init` stores the handle at the moment runtime
creation succeeds.  For failures strictly before that point (argument
errors, library not loadable, entry point not resolvable, creation
reporting non-success) the state is unchanged — no handle is stored,
the call does not return ok, and a subsequent `init` is not rejected as
already initialized.  But once creation succeeds, the handle and the
thread-local interface are stored even if `dladdr` or the re-pinning
`dlopen` then fail: `initialized` reports true and every subsequent
`init` is rejected as already initialized. -/
theorem init_handle_storage (cfg : InitCfg) (s : InitSt) (h : s.jj = false) :
    ((reachesCreation cfg && cfg.createOk) = false →
      (init cfg s).1 = s
      ∧ (init cfg s).2 ≠ InitOutcome.ok
      ∧ ∀ cfg2, (init cfg2 (init cfg s).1).2 ≠
          InitOutcome.luaError "JVM has already been initialized")
    ∧ ((reachesCreation cfg && cfg.createOk) = true →
      (init cfg s).1 = { jj := true, j := true }
      ∧ initialized (init cfg s).1 = true
      ∧ ∀ cfg2, (init cfg2 (init cfg s).1).2 =
          InitOutcome.luaError "JVM has already been initialized") := by
  constructor
  · intro hr
    obtain ⟨h1, h2⟩ := init_no_create cfg s h hr
    refine ⟨h1, h2, ?_⟩
    intro cfg2
    rw [h1]
    exact init_not_already cfg2 s h
  · intro hr
    have h1 := init_create cfg s h hr
    refine ⟨h1, by rw [initialized, h1], ?_⟩
    intro cfg2
    rw [h1, (init_already cfg2 { jj := true, j := true } rfl)]

/-- Witness for C7 (amended) at concrete inputs: a failing `dlopen`
leaves the state unchanged, while a successful creation followed by a
failing re-pinning stores the handle and blocks a second `init`. -/
theorem init_handle_storage_witness :
    (init cfgDlopenFail ⟨false, false⟩).1 = ⟨false, false⟩
    ∧ (init cfgRepinFail2 (init cfgRepinFail2 ⟨false, false⟩).1).2 =
        InitOutcome.luaError "JVM has already been initialized" :=
  ⟨((init_handle_storage cfgDlopenFail ⟨false, false⟩ rfl).1 rfl).1,
   ((init_handle_storage cfgRepinFail2 ⟨false, false⟩ rfl).2 rfl).2.2
     cfgRepinFail2⟩

/-- Supporting lemma: appending to a list and setting the slot right
after the prefix writes that slot. -/
lemma set_append_length {α : Type} (pre : List α) (x y : α) (tail : List α) :
    (pre ++ y :: tail).set pre.length x = pre ++ x :: tail := by
  induction pre with
  | nil => rfl
  | cons a rest ih => simp [List.set, ih]

/-- Supporting lemma: the current option-block loop, run from slot `i`
with `i` slots already filled, fills the remaining slots in order. -/
lemma build_jvmopt_go_spec (opts : List String) :
    ∀ pre : List (Option String),
    build_jvmopt_go opts pre.length (pre ++ List.replicate opts.length none) =
      pre ++ opts.map some := by
  induction opts with
  | nil => intro pre; simp [build_jvmopt_go]
  | cons s rest ih =>
      intro pre
      rw [show List.replicate (s :: rest).length (none : Option String) =
          none :: List.replicate rest.length none from rfl]
      rw [build_jvmopt_go, set_append_length]
      have h2 := ih (pre ++ [some s])
      simpa [List.append_assoc] using h2

/-- Supporting lemma: the current `init` passes the option strings
through in order. -/
lemma build_jvmopt_eq_map (opts : List String) :
    build_jvmopt opts = opts.map some := by
  have h := build_jvmopt_go_spec opts []
  simpa [build_jvmopt] using h

/-- C8 (code evaluated at the failing input): for the option list
`["-Da", "-Db"]` the current `init` builds the block in caller order,
but the historical `init` at the bottom of `lujavrite.c` writes every
option string into slot 0 (`jvmopt[0]` instead of `jvmopt[i]`), ending
with only the last option in slot 0 and slot 1 uninitialized. -/
theorem init_option_block_eval :
    build_jvmopt ["-Da", "-Db"] = [some "-Da", some "-Db"]
    ∧ build_jvmopt_historical ["-Da", "-Db"] = [some "-Db", none] := by
  decide

/-- C9 counterexample at a concrete schedule: under the interleaving in
which both threads pass the `JJ != NULL` check before either creates
the JVM, thread 0 succeeds while thread 1 completes with the
creation-failure error, not with the already-initialized error — so it
is not the case that every other `init` observes AlreadyInitialized. -/
theorem concurrent_init_counterexample :
    (raceRun [false, true, false, true]).t0 = TPc.done RaceOutcome.success
    ∧ (raceRun [false, true, false, true]).t1 =
        TPc.done RaceOutcome.createFailed
    ∧ (raceRun [false, true, false, true]).t1 ≠
        TPc.done RaceOutcome.alreadyInit := by
  decide

/-- C9 as amended: in every interleaving of two concurrent `init`
attempts, at most one succeeds — and exactly one once both complete —
and the handle, once published, is never unpublished or reassigned; but
only an `init` whose initialization check runs after the winner has
published observes the already-initialized error, while an `init` racing
past the check may instead observe the creation-failure error. -/
theorem concurrent_init_race (sched : List Bool) :
    (bothDone (raceRun sched) = true → successCount (raceRun sched) = 1)
    ∧ (∀ t, (raceRun sched).jj = true → (raceStep (raceRun sched) t).jj = true)
    ∧ ((raceRun sched).jj = true → (raceRun sched).t1 = TPc.start →
        (raceStep (raceRun sched) true).t1 = TPc.done RaceOutcome.alreadyInit) := by
  have hinv := raceInv_run sched
  refine ⟨?_, ?_, ?_⟩
  · revert hinv
    generalize raceRun sched = s
    revert s
    decide
  · revert hinv
    generalize raceRun sched = s
    revert s
    decide
  · revert hinv
    generalize raceRun sched = s
    revert s
    decide

/-- Witness for C9 (amended) at a concrete schedule: in the serialized
schedule where thread 0 finishes before thread 1 starts, exactly one
`init` succeeds, and thread 1 observes the already-initialized error. -/
theorem concurrent_init_race_witness :
    successCount (raceRun [false, false, true, true]) = 1
    ∧ (raceStep (raceRun [false, false]) true).t1 =
        TPc.done RaceOutcome.alreadyInit :=
  ⟨(concurrent_init_race [false, false, true, true]).1 (by decide),
   (concurrent_init_race [false, false]).2.2 (by decide) (by decide)⟩

end Lujavrite
